import Mathlib

/-!
Shallow embedding of `src/app.py`, a Streamlit dashboard over the adult
census CSV.  The verified core is the load-and-transform step
(`load_data`, lines 8-28) and the filter pipeline that produces
`df_filtered` (lines 62-88), together with the empty-result branch at
line 95 and the error branches at lines 23-28.

Modelling choices:
- A CSV row is a `RawRecord` whose categorical columns are plain strings
  (what `pd.read_csv` yields for object columns) and whose numeric
  columns are `Int`.
- `df.replace('?', pd.NA)` (line 16) turns each categorical cell into an
  `Option String`: the sentinel `"?"` becomes `none`, everything else
  `some s`.  Numeric columns are untouched, since no `Int` cell equals
  the string sentinel.
- `df['income'].apply(lambda x: 1 if x.strip() == '>50K' else 0)`
  (line 20) is `deriveRow`: on a `none` income the Python call
  `x.strip()` raises `AttributeError` (pd.NA has no `strip`), which the
  surrounding `except Exception` turns into the fatal load-failure path,
  so `deriveRow` is `Option`-valued and `deriveAll` fails as soon as one
  row fails, exactly like the element-wise `apply`.
- The input file is a `Resource`: missing (`FileNotFoundError`),
  malformed (any other parse exception), or a parsed list of rows.
- `st.stop()` halts the script, so `load_data` returns
  `Except LoadError` and `runApp` propagates the error, producing no
  render outcome.
-/

/-- One parsed row of `adult.csv`, before any normalization.  Categorical
columns are the raw strings from the file; `education_num` stands for the
`education.num` column and `hours_per_week` for `hours.per.week`. -/
structure RawRecord where
  age : Int
  workclass : String
  education : String
  education_num : Int
  marital_status : String
  occupation : String
  relationship : String
  race : String
  sex : String
  hours_per_week : Int
  native_country : String
  income : String
deriving DecidableEq

/-- A row after `df.replace('?', pd.NA, inplace=True)` (app.py line 16):
each categorical cell is `none` (pd.NA) or `some s` with `s ≠ "?"`. -/
structure NormRecord where
  age : Int
  workclass : Option String
  education : Option String
  education_num : Int
  marital_status : Option String
  occupation : Option String
  relationship : Option String
  race : Option String
  sex : Option String
  hours_per_week : Int
  native_country : Option String
  income : Option String
deriving DecidableEq

/-- A row of the table `load_data` returns: the normalized row plus the
derived `income_numeric` column (app.py line 20). -/
structure Record where
  age : Int
  workclass : Option String
  education : Option String
  education_num : Int
  marital_status : Option String
  occupation : Option String
  relationship : Option String
  race : Option String
  sex : Option String
  hours_per_week : Int
  native_country : Option String
  income : Option String
  income_numeric : Int
deriving DecidableEq

/-- Whitespace for Python `str.strip` (space, tab, newline, carriage
return, vertical tab, form feed). -/
def isPySpace (c : Char) : Bool :=
  c = ' ' || c = '\t' || c = '\n' || c = '\r' || c = '\x0b' || c = '\x0c'

/-- Python `str.strip()`: drop leading and trailing whitespace. -/
def pyStrip (s : String) : String :=
  String.mk (((s.data.dropWhile isPySpace).reverse.dropWhile isPySpace).reverse)

/-- `df.replace('?', pd.NA)` on one categorical cell (app.py line 16). -/
def replQ (s : String) : Option String :=
  if s = "?" then none else some s

/-- Line 16 applied to a whole row: every categorical column is
normalized; numeric columns are unchanged. -/
def normalizeRow (raw : RawRecord) : NormRecord :=
  { age := raw.age,
    workclass := replQ raw.workclass,
    education := replQ raw.education,
    education_num := raw.education_num,
    marital_status := replQ raw.marital_status,
    occupation := replQ raw.occupation,
    relationship := replQ raw.relationship,
    race := replQ raw.race,
    sex := replQ raw.sex,
    hours_per_week := raw.hours_per_week,
    native_country := replQ raw.native_country,
    income := replQ raw.income }

/-- Line 20 on one row: `lambda x: 1 if x.strip() == '>50K' else 0`.
On a missing income (`none`, i.e. pd.NA) the attribute access
`x.strip` raises, so the result is `none`. -/
def deriveRow (n : NormRecord) : Option Record :=
  match n.income with
  | none => none
  | some s =>
    some { age := n.age,
           workclass := n.workclass,
           education := n.education,
           education_num := n.education_num,
           marital_status := n.marital_status,
           occupation := n.occupation,
           relationship := n.relationship,
           race := n.race,
           sex := n.sex,
           hours_per_week := n.hours_per_week,
           native_country := n.native_country,
           income := some s,
           income_numeric := if pyStrip s = ">50K" then 1 else 0 }

/-- `Series.apply` over the whole column: element-wise, and the first
raised exception aborts the whole derivation. -/
def deriveAll : List NormRecord → Option (List Record)
  | [] => some []
  | n :: rest =>
    match deriveRow n, deriveAll rest with
    | some r, some t => some (r :: t)
    | _, _ => none

/-- The input file `adult.csv` as `pd.read_csv` sees it: absent
(`FileNotFoundError`), unreadable for another reason (any other
exception from parsing), or a list of parsed rows. -/
inductive Resource where
  | missing : Resource
  | malformed : String → Resource
  | ok : List RawRecord → Resource
deriving DecidableEq

/-- The two fatal conditions of app.py lines 23-28. -/
inductive LoadError where
  | resourceNotFound : LoadError
  | loadFailure : String → LoadError
deriving DecidableEq

/-- The cause string for the `AttributeError` raised when line 20 strips
a pd.NA income. -/
def naStripCause : String :=
  "AttributeError: NAType object has no attribute strip"

/-- The user-facing message `st.error` shows for each fatal condition
(app.py lines 24 and 27); the not-found message names `adult.csv`. -/
def errorMessage : LoadError → String
  | LoadError.resourceNotFound =>
      "adult.csv 파일을 찾을 수 없습니다. Streamlit 앱 파일과 같은 디렉토리에 있는지 확인하거나, 파일 경로를 정확히 지정해주세요."
  | LoadError.loadFailure cause =>
      "데이터 로드 중 오류가 발생했습니다: " ++ cause

/-- `load_data` (app.py lines 8-28): parse, normalize the sentinel,
derive `income_numeric`; `FileNotFoundError` becomes
`resourceNotFound`, every other exception becomes `loadFailure` with
its cause, and `st.stop()` means no table is returned. -/
def load_data : Resource → Except LoadError (List Record)
  | Resource.missing => Except.error LoadError.resourceNotFound
  | Resource.malformed cause => Except.error (LoadError.loadFailure cause)
  | Resource.ok raws =>
    match deriveAll (raws.map normalizeRow) with
    | none => Except.error (LoadError.loadFailure naStripCause)
    | some t => Except.ok t

/-- `@st.cache_data` on `load_data`: the process-wide cache is an
`Option` table; a hit returns the cached table unchanged, a miss runs
`load_data` and fills the cache. -/
def load_data_cached (res : Resource) (cache : Option (List Record)) :
    Except LoadError (List Record × Option (List Record)) :=
  match cache with
  | some t => Except.ok (t, some t)
  | none =>
    match load_data res with
    | Except.ok t => Except.ok (t, some t)
    | Except.error e => Except.error e

/-- The three-stage filter of app.py lines 62-88: `df_filtered` starts
as a copy of `df`, is narrowed by the `education.num` slider range
(line 70), then by `education.isin(selected)` (line 80), then by
`income.isin(selected)` (line 88).  `isin` on a pd.NA cell matches a
pd.NA element of the selection (singleton identity), hence plain
equality on `Option String`. -/
def df_filtered (df : List Record) (minEdu maxEdu : Int)
    (selectedEducation selectedIncomeTypes : List (Option String)) :
    List Record :=
  ((df.filter (fun r =>
      decide (minEdu ≤ r.education_num) && decide (r.education_num ≤ maxEdu))).filter
    (fun r => decide (r.education ∈ selectedEducation))).filter
    (fun r => decide (r.income ∈ selectedIncomeTypes))

/-- `Series.unique().tolist()` (app.py lines 74 and 85): the distinct
values in first-occurrence order, via an accumulator of values already
seen. -/
def uniqueAux {α : Type} [DecidableEq α] (seen : List α) : List α → List α
  | [] => []
  | a :: rest =>
    if a ∈ seen then uniqueAux seen rest else a :: uniqueAux (a :: seen) rest

/-- `Series.unique().tolist()` over a whole column. -/
def uniqueList {α : Type} [DecidableEq α] (l : List α) : List α :=
  uniqueAux [] l

/-- `int(df[col].min())` (app.py line 67): the least value of a column,
`none` on an empty table (where the pandas call would itself fail). -/
def listMin : List Int → Option Int
  | [] => none
  | a :: rest =>
    match listMin rest with
    | none => some a
    | some b => some (min a b)

/-- `int(df[col].max())` (app.py line 68). -/
def listMax : List Int → Option Int
  | [] => none
  | a :: rest =>
    match listMax rest with
    | none => some a
    | some b => some (max a b)

/-- The branch at app.py lines 95-114: a nonempty filtered table is
charted, an empty one produces the "no data" warning instead of an
error. -/
inductive RenderOutcome where
  | chart : List Record → RenderOutcome
  | noDataWarning : RenderOutcome
deriving DecidableEq

/-- `if not df_filtered.empty: ... else: st.warning(...)`. -/
def renderStep (rows : List Record) : RenderOutcome :=
  if rows.isEmpty then RenderOutcome.noDataWarning else RenderOutcome.chart rows

/-- One pass of the script: load, filter, render.  A load error
propagates (`st.stop()`), so nothing downstream runs. -/
def runApp (res : Resource) (minEdu maxEdu : Int)
    (selectedEducation selectedIncomeTypes : List (Option String)) :
    Except LoadError RenderOutcome :=
  match load_data res with
  | Except.error e => Except.error e
  | Except.ok df =>
      Except.ok (renderStep (df_filtered df minEdu maxEdu selectedEducation selectedIncomeTypes))

/-- The two table-valued variables of the script: the loaded `df` and
the derived `df_filtered` view. -/
structure ScriptState where
  df : List Record
  df_filtered : List Record
deriving DecidableEq

/-- The filtering block of app.py lines 62-88 as a state transformer:
`df_filtered = df.copy()` followed by the three reassignments of
`df_filtered`; `df` itself is never written. -/
def filterBlock (s : ScriptState) (minEdu maxEdu : Int)
    (selectedEducation selectedIncomeTypes : List (Option String)) :
    ScriptState :=
  let s0 : ScriptState := { s with df_filtered := s.df }
  let v1 : List Record := s0.df_filtered.filter (fun r =>
    decide (minEdu ≤ r.education_num) && decide (r.education_num ≤ maxEdu))
  let s1 : ScriptState := { s0 with df_filtered := v1 }
  let v2 : List Record :=
    s1.df_filtered.filter (fun r => decide (r.education ∈ selectedEducation))
  let s2 : ScriptState := { s1 with df_filtered := v2 }
  let v3 : List Record :=
    s2.df_filtered.filter (fun r => decide (r.income ∈ selectedIncomeTypes))
  { s2 with df_filtered := v3 }

/-- Sentinel replacement never leaves the literal sentinel behind. -/
theorem replQ_ne_sentinel (s : String) : replQ s ≠ some "?" := by
  unfold replQ
  split <;> simp_all

/-- Every record of a successful derivation comes from some normalized
row of the input. -/
theorem deriveAll_mem {l : List NormRecord} {t : List Record}
    (h : deriveAll l = some t) : ∀ r ∈ t, ∃ n ∈ l, deriveRow n = some r := by
  induction l generalizing t with
  | nil =>
    simp only [deriveAll, Option.some.injEq] at h
    subst h
    intro r hr
    cases hr
  | cons a l ih =>
    intro r hr
    unfold deriveAll at h
    split at h
    case _ r0 t0 ha hl =>
      simp only [Option.some.injEq] at h
      subst h
      cases hr with
      | head => exact ⟨a, List.mem_cons_self a l, ha⟩
      | tail _ hr =>
        obtain ⟨n, hn, hdn⟩ := ih hl r hr
        exact ⟨n, List.mem_cons_of_mem a hn, hdn⟩
    case _ => exact Option.noConfusion h

/-- Shape of a successfully derived record: the normalized fields are
carried over and `income_numeric` is the strip-and-compare result. -/
theorem deriveRow_eq_some {n : NormRecord} {r : Record}
    (h : deriveRow n = some r) :
    ∃ s, n.income = some s ∧
      r = { age := n.age, workclass := n.workclass, education := n.education,
            education_num := n.education_num, marital_status := n.marital_status,
            occupation := n.occupation, relationship := n.relationship,
            race := n.race, sex := n.sex, hours_per_week := n.hours_per_week,
            native_country := n.native_country, income := some s,
            income_numeric := if pyStrip s = ">50K" then 1 else 0 } := by
  unfold deriveRow at h
  split at h
  case _ => exact Option.noConfusion h
  case _ s hs =>
    simp only [Option.some.injEq] at h
    exact ⟨s, hs, h.symm⟩

/-- A derivation with a missing income in it fails as a whole. -/
theorem deriveAll_eq_none {l : List NormRecord} {n : NormRecord}
    (hn : n ∈ l) (hi : n.income = none) : deriveAll l = none := by
  induction l with
  | nil => cases hn
  | cons a l ih =>
    cases hn with
    | head =>
      unfold deriveAll deriveRow
      rw [hi]
    | tail _ hn =>
      unfold deriveAll
      rw [ih hn]
      cases deriveRow a <;> rfl

/-- A synthetic complete row with the lower income bracket. -/
def rawA : RawRecord :=
  { age := 39, workclass := "State-gov", education := "Bachelors",
    education_num := 13, marital_status := "Never-married",
    occupation := "Adm-clerical", relationship := "Not-in-family",
    race := "White", sex := "Male", hours_per_week := 40,
    native_country := "United-States", income := "<=50K" }

/-- A synthetic complete row with the higher income bracket, with the
leading blank the source file carries. -/
def rawB : RawRecord :=
  { age := 52, workclass := "Self-emp-not-inc", education := "HS-grad",
    education_num := 9, marital_status := "Married-civ-spouse",
    occupation := "Exec-managerial", relationship := "Husband",
    race := "White", sex := "Female", hours_per_week := 45,
    native_country := "United-States", income := " >50K" }

/-- A row whose occupation and income carry the missing-value
sentinel. -/
def rawQ : RawRecord := { rawA with occupation := "?", income := "?" }

/-- The record `load_data` derives from `rawA`. -/
def recA : Record :=
  { age := 39, workclass := some "State-gov", education := some "Bachelors",
    education_num := 13, marital_status := some "Never-married",
    occupation := some "Adm-clerical", relationship := some "Not-in-family",
    race := some "White", sex := some "Male", hours_per_week := 40,
    native_country := some "United-States", income := some "<=50K",
    income_numeric := 0 }

/-- The record `load_data` derives from `rawB`. -/
def recB : Record :=
  { age := 52, workclass := some "Self-emp-not-inc", education := some "HS-grad",
    education_num := 9, marital_status := some "Married-civ-spouse",
    occupation := some "Exec-managerial", relationship := some "Husband",
    race := some "White", sex := some "Female", hours_per_week := 45,
    native_country := some "United-States", income := some " >50K",
    income_numeric := 1 }

/-- `load_data` succeeds exactly when the whole derivation does. -/
theorem load_data_ok {res : List RawRecord} {t : List Record} :
    load_data (Resource.ok res) = Except.ok t ↔
      deriveAll (res.map normalizeRow) = some t := by
  simp only [load_data]
  cases hall : deriveAll (res.map normalizeRow) <;> simp

example : load_data (Resource.ok [rawA, rawB]) = Except.ok [recA, recB] := by rfl

/-- C1: in the table `load_data` returns, `income_numeric` is 1 exactly
when the stripped income label equals `>50K`, and 0 for every other
income value, whatever surrounding whitespace the label carries. -/
theorem income_numeric_iff_strip (res : List RawRecord) (t : List Record)
    (h : load_data (Resource.ok res) = Except.ok t) :
    ∀ r ∈ t, ∃ s, r.income = some s ∧
      (r.income_numeric = 1 ↔ pyStrip s = ">50K") ∧
      (pyStrip s ≠ ">50K" → r.income_numeric = 0) := by
  intro r hr
  rw [load_data_ok] at h
  obtain ⟨n, hn, hd⟩ := deriveAll_mem h r hr
  obtain ⟨s, hs, rfl⟩ := deriveRow_eq_some hd
  refine ⟨s, rfl, ?_, ?_⟩
  · by_cases hcase : pyStrip s = ">50K" <;> simp [hcase]
  · intro hne
    simp [hne]

/-- Witness for C1 at the two-row sample table, read off for `recB`. -/
theorem income_numeric_iff_strip_witness :
    ∃ s, recB.income = some s ∧
      (recB.income_numeric = 1 ↔ pyStrip s = ">50K") ∧
      (pyStrip s ≠ ">50K" → recB.income_numeric = 0) :=
  income_numeric_iff_strip [rawA, rawB] [recA, recB] (by rfl) recB (by decide)

/-- C4: after a successful load, no categorical cell of any record still
equals the literal sentinel `"?"` — line 16 has replaced every such cell
with the absent marker, uniformly across all columns (the numeric
columns `age`, `education_num`, `hours_per_week` hold integers, which
never compare equal to a string sentinel). -/
theorem sentinel_normalized (res : List RawRecord) (t : List Record)
    (h : load_data (Resource.ok res) = Except.ok t) :
    ∀ r ∈ t, r.workclass ≠ some "?" ∧ r.education ≠ some "?" ∧
      r.marital_status ≠ some "?" ∧ r.occupation ≠ some "?" ∧
      r.relationship ≠ some "?" ∧ r.race ≠ some "?" ∧ r.sex ≠ some "?" ∧
      r.native_country ≠ some "?" ∧ r.income ≠ some "?" := by
  intro r hr
  rw [load_data_ok] at h
  obtain ⟨n, hn, hd⟩ := deriveAll_mem h r hr
  obtain ⟨raw, _, rfl⟩ := List.mem_map.mp hn
  obtain ⟨s, hs, rfl⟩ := deriveRow_eq_some hd
  refine ⟨replQ_ne_sentinel _, replQ_ne_sentinel _, replQ_ne_sentinel _,
    replQ_ne_sentinel _, replQ_ne_sentinel _, replQ_ne_sentinel _,
    replQ_ne_sentinel _, replQ_ne_sentinel _, ?_⟩
  show some s ≠ some "?"
  rw [← hs]
  exact replQ_ne_sentinel _

/-- Witness for C4 at the two-row sample table, read off for `recA`. -/
theorem sentinel_normalized_witness :
    recA.workclass ≠ some "?" ∧ recA.education ≠ some "?" ∧
      recA.marital_status ≠ some "?" ∧ recA.occupation ≠ some "?" ∧
      recA.relationship ≠ some "?" ∧ recA.race ≠ some "?" ∧
      recA.sex ≠ some "?" ∧ recA.native_country ≠ some "?" ∧
      recA.income ≠ some "?" :=
  sentinel_normalized [rawA, rawB] [recA, recB] (by rfl) recA (by decide)

/-- C10: a parsed input in which some row carries the sentinel in its
income field makes `load_data` fail with the `loadFailure` path instead
of returning a table with that record's `income_numeric` set to 0: the
sentinel is normalized to pd.NA before the derivation, and stripping
pd.NA raises. -/
theorem sentinel_income_load_failure (raws : List RawRecord)
    (raw : RawRecord) (hmem : raw ∈ raws) (hq : raw.income = "?") :
    load_data (Resource.ok raws) =
      Except.error (LoadError.loadFailure naStripCause) := by
  have hnone : deriveAll (raws.map normalizeRow) = none := by
    refine deriveAll_eq_none (List.mem_map_of_mem normalizeRow hmem) ?_
    simp [normalizeRow, replQ, hq]
  simp only [load_data]
  rw [hnone]

/-- Witness for C10: a single-row table whose income is the sentinel. -/
theorem sentinel_income_load_failure_witness :
    load_data (Resource.ok [rawQ]) =
      Except.error (LoadError.loadFailure naStripCause) :=
  sentinel_income_load_failure [rawQ] rawQ (by decide) (by rfl)

/-- `listMin` of a nonempty column is defined. -/
theorem listMin_cons_isSome (a : Int) (l : List Int) :
    ∃ m, listMin (a :: l) = some m := by
  unfold listMin
  cases listMin l <;> exact ⟨_, rfl⟩

/-- `listMax` of a nonempty column is defined. -/
theorem listMax_cons_isSome (a : Int) (l : List Int) :
    ∃ m, listMax (a :: l) = some m := by
  unfold listMax
  cases listMax l <;> exact ⟨_, rfl⟩

/-- The column minimum bounds every cell from below. -/
theorem listMin_le {l : List Int} {m : Int} (h : listMin l = some m) :
    ∀ x ∈ l, m ≤ x := by
  induction l generalizing m with
  | nil => cases h
  | cons a l ih =>
    intro x hx
    unfold listMin at h
    cases hl : listMin l with
    | none =>
      rw [hl] at h
      simp only [Option.some.injEq] at h
      subst h
      cases hx with
      | head => exact le_refl _
      | tail _ hx =>
        cases l with
        | nil => cases hx
        | cons b l' =>
          obtain ⟨m', hm'⟩ := listMin_cons_isSome b l'
          rw [hm'] at hl
          cases hl
    | some b =>
      rw [hl] at h
      simp only [Option.some.injEq] at h
      subst h
      cases hx with
      | head => exact min_le_left a b
      | tail _ hx => exact le_trans (min_le_right a b) (ih hl x hx)

/-- The column maximum bounds every cell from above. -/
theorem le_listMax {l : List Int} {M : Int} (h : listMax l = some M) :
    ∀ x ∈ l, x ≤ M := by
  induction l generalizing M with
  | nil => cases h
  | cons a l ih =>
    intro x hx
    unfold listMax at h
    cases hl : listMax l with
    | none =>
      rw [hl] at h
      simp only [Option.some.injEq] at h
      subst h
      cases hx with
      | head => exact le_refl _
      | tail _ hx =>
        cases l with
        | nil => cases hx
        | cons b l' =>
          obtain ⟨m', hm'⟩ := listMax_cons_isSome b l'
          rw [hm'] at hl
          cases hl
    | some b =>
      rw [hl] at h
      simp only [Option.some.injEq] at h
      subst h
      cases hx with
      | head => exact le_max_left a b
      | tail _ hx => exact le_trans (ih hl x hx) (le_max_right a b)

/-- `uniqueAux` keeps exactly the values of the column not yet seen. -/
theorem mem_uniqueAux {α : Type} [DecidableEq α] (l : List α) :
    ∀ (seen : List α) (a : α),
      a ∈ uniqueAux seen l ↔ a ∈ l ∧ a ∉ seen := by
  induction l with
  | nil => simp [uniqueAux]
  | cons x rest ih =>
    intro seen a
    unfold uniqueAux
    by_cases hx : x ∈ seen
    · rw [if_pos hx, ih]
      constructor
      · rintro ⟨h1, h2⟩
        exact ⟨List.mem_cons_of_mem _ h1, h2⟩
      · rintro ⟨h1, h2⟩
        cases List.mem_cons.mp h1 with
        | inl he => exact absurd (he ▸ hx) h2
        | inr h1 => exact ⟨h1, h2⟩
    · rw [if_neg hx]
      constructor
      · intro hmem
        cases List.mem_cons.mp hmem with
        | inl he => exact ⟨he ▸ List.mem_cons_self x rest, he ▸ hx⟩
        | inr hmem =>
          obtain ⟨h1, h2⟩ := (ih _ _).mp hmem
          exact ⟨List.mem_cons_of_mem _ h1,
            fun hc => h2 (List.mem_cons_of_mem _ hc)⟩
      · rintro ⟨h1, h2⟩
        cases List.mem_cons.mp h1 with
        | inl he => exact he ▸ List.mem_cons_self x (uniqueAux (x :: seen) rest)
        | inr h1 =>
          by_cases hax : a = x
          · exact hax ▸ List.mem_cons_self x (uniqueAux (x :: seen) rest)
          · refine List.mem_cons_of_mem _ ((ih _ _).mpr ⟨h1, fun hc => ?_⟩)
            cases List.mem_cons.mp hc with
            | inl he => exact hax he
            | inr hc => exact h2 hc

/-- `Series.unique()` keeps exactly the values of the column. -/
theorem mem_uniqueList {α : Type} [DecidableEq α] (l : List α) (a : α) :
    a ∈ uniqueList l ↔ a ∈ l := by
  simp [uniqueList, mem_uniqueAux]

/-- C3: filtering with the default constraints the UI derives from the
loaded table itself — slider bounds at the observed min and max of
`education.num` (lines 67-68) and both multiselects defaulting to every
distinct label present (lines 74-78 and 85-86) — returns the table
unchanged: every record survives. -/
theorem filter_defaults_id (df : List Record) (m M : Int)
    (hm : listMin (df.map (fun r => r.education_num)) = some m)
    (hM : listMax (df.map (fun r => r.education_num)) = some M) :
    df_filtered df m M (uniqueList (df.map (fun r => r.education)))
      (uniqueList (df.map (fun r => r.income))) = df := by
  have h1 : df.filter (fun r =>
      decide (m ≤ r.education_num) && decide (r.education_num ≤ M)) = df := by
    rw [List.filter_eq_self]
    intro a ha
    simp only [Bool.and_eq_true, decide_eq_true_eq]
    exact ⟨listMin_le hm _ (List.mem_map_of_mem _ ha),
      le_listMax hM _ (List.mem_map_of_mem _ ha)⟩
  have h2 : df.filter (fun r =>
      decide (r.education ∈ uniqueList (df.map (fun r => r.education)))) = df := by
    rw [List.filter_eq_self]
    intro a ha
    simp only [decide_eq_true_eq, mem_uniqueList]
    exact List.mem_map_of_mem _ ha
  have h3 : df.filter (fun r =>
      decide (r.income ∈ uniqueList (df.map (fun r => r.income)))) = df := by
    rw [List.filter_eq_self]
    intro a ha
    simp only [decide_eq_true_eq, mem_uniqueList]
    exact List.mem_map_of_mem _ ha
  unfold df_filtered
  rw [h1, h2, h3]

/-- Witness for C3 at the two-row sample table, whose observed
`education.num` bounds are 9 and 13. -/
theorem filter_defaults_id_witness :
    df_filtered [recA, recB] 9 13
      (uniqueList ([recA, recB].map (fun r => r.education)))
      (uniqueList ([recA, recB].map (fun r => r.income))) = [recA, recB] :=
  filter_defaults_id [recA, recB] 9 13 (by decide) (by decide)

/-- C2: the filter pipeline is conjunctive.  Running it twice with two
constraint sets equals running it once with the conjunction — the
intersected slider range and the intersected label selections — and a
record survives one pass only if it meets the range bound AND the
education-label membership AND the income-label membership. -/
theorem filter_conjunction (df : List Record) (m1 M1 : Int)
    (e1 i1 : List (Option String)) (m2 M2 : Int)
    (e2 i2 : List (Option String)) :
    df_filtered (df_filtered df m1 M1 e1 i1) m2 M2 e2 i2 =
      df_filtered df (max m1 m2) (min M1 M2) (e1 ∩ e2) (i1 ∩ i2) ∧
    ∀ r ∈ df_filtered df m1 M1 e1 i1,
      (m1 ≤ r.education_num ∧ r.education_num ≤ M1) ∧
        r.education ∈ e1 ∧ r.income ∈ i1 := by
  constructor
  · simp only [df_filtered, List.filter_filter]
    refine List.filter_congr ?_
    intro r _
    rw [Bool.eq_iff_iff]
    simp only [Bool.and_eq_true, decide_eq_true_eq, max_le_iff, le_min_iff,
      List.mem_inter_iff]
    tauto
  · intro r hr
    simp only [df_filtered, List.mem_filter, Bool.and_eq_true,
      decide_eq_true_eq] at hr
    exact ⟨hr.1.1.2, hr.1.2, hr.2⟩

/-- Witness for C2: two concrete constraint sets over the sample table,
with the survival conjunct read off for `recB`. -/
theorem filter_conjunction_witness :
    (df_filtered (df_filtered [recA, recB] 1 16
        [some "Bachelors", some "HS-grad"] [some "<=50K", some " >50K"])
        9 16 [some "HS-grad"] [some " >50K"] =
      df_filtered [recA, recB] (max 1 9) (min 16 16)
        ([some "Bachelors", some "HS-grad"] ∩ [some "HS-grad"])
        ([some "<=50K", some " >50K"] ∩ [some " >50K"])) ∧
    ((1 ≤ recB.education_num ∧ recB.education_num ≤ 16) ∧
      recB.education ∈ [some "Bachelors", some "HS-grad"] ∧
      recB.income ∈ [some "<=50K", some " >50K"]) := by
  have h := filter_conjunction [recA, recB] 1 16
    [some "Bachelors", some "HS-grad"] [some "<=50K", some " >50K"]
    9 16 [some "HS-grad"] [some " >50K"]
  exact ⟨h.1, h.2 recB (by decide)⟩

/-- C5: the filter pipeline cannot fail.  When the slider range excludes
every record, the result is the empty table — a recognized state that
the branch at line 95 sends down the "no data" warning path, not an
error. -/
theorem filter_empty_ok (df : List Record) (minEdu maxEdu : Int)
    (sE sI : List (Option String))
    (h : ∀ r ∈ df, ¬ (minEdu ≤ r.education_num ∧ r.education_num ≤ maxEdu)) :
    df_filtered df minEdu maxEdu sE sI = [] ∧
      renderStep (df_filtered df minEdu maxEdu sE sI) =
        RenderOutcome.noDataWarning := by
  have h1 : df.filter (fun r =>
      decide (minEdu ≤ r.education_num) && decide (r.education_num ≤ maxEdu))
      = [] := by
    rw [List.filter_eq_nil_iff]
    intro a ha
    simp only [Bool.and_eq_true, decide_eq_true_eq]
    exact fun hc => h a ha ⟨hc.1, hc.2⟩
  have he : df_filtered df minEdu maxEdu sE sI = [] := by
    unfold df_filtered
    rw [h1]
    rfl
  refine ⟨he, ?_⟩
  rw [he]
  rfl

/-- Witness for C5: the range [17, 17] lies above every observed
`education.num` of the sample table. -/
theorem filter_empty_ok_witness :
    df_filtered [recA, recB] 17 17 [] [] = [] ∧
      renderStep (df_filtered [recA, recB] 17 17 [] []) =
        RenderOutcome.noDataWarning :=
  filter_empty_ok [recA, recB] 17 17 [] [] (by decide)

/-- C6: the filtered view is a sublist of the input table — it contains
only records of the input, in their original relative order, each
carried over unchanged (whole records are kept or dropped, never
edited, so column order and attribute values are preserved). -/
theorem filter_view_of_input (df : List Record) (m M : Int)
    (sE sI : List (Option String)) :
    (df_filtered df m M sE sI).Sublist df ∧
      ∀ r ∈ df_filtered df m M sE sI, r ∈ df := by
  have hs : (df_filtered df m M sE sI).Sublist df := by
    unfold df_filtered
    exact ((List.filter_sublist _).trans (List.filter_sublist _)).trans
      (List.filter_sublist _)
  exact ⟨hs, fun r hr => hs.subset hr⟩

/-- Witness for C6: a pass over the sample table that keeps `recB`. -/
theorem filter_view_of_input_witness :
    (df_filtered [recA, recB] 9 16 [some "HS-grad"]
      [some " >50K"]).Sublist [recA, recB] ∧ recB ∈ ([recA, recB] : List Record) := by
  have h := filter_view_of_input [recA, recB] 9 16 [some "HS-grad"] [some " >50K"]
  exact ⟨h.1, h.2 recB (by decide)⟩

/-- C7: the filtering block of lines 62-88 never writes `df`.  It
rebinds only the `df_filtered` variable, starting from a copy of `df`,
and the final view is exactly the pure `df_filtered` function of the
input table. -/
theorem filter_block_frame (s : ScriptState) (m M : Int)
    (sE sI : List (Option String)) :
    (filterBlock s m M sE sI).df = s.df ∧
      (filterBlock s m M sE sI).df_filtered = df_filtered s.df m M sE sI :=
  ⟨rfl, rfl⟩

/-- C8: within one process, a second call of the cached loader returns
the very table the first call produced: identical record list, hence
identical record count, column set and values. -/
theorem load_idempotent (res : Resource) (t1 t2 : List Record)
    (c1 c2 : Option (List Record))
    (h1 : load_data_cached res none = Except.ok (t1, c1))
    (h2 : load_data_cached res c1 = Except.ok (t2, c2)) :
    t2 = t1 ∧ c2 = c1 ∧ t2.length = t1.length := by
  unfold load_data_cached at h1
  cases hl : load_data res with
  | error e =>
    rw [hl] at h1
    exact Except.noConfusion h1
  | ok t =>
    rw [hl] at h1
    simp only [Except.ok.injEq, Prod.mk.injEq] at h1
    obtain ⟨rfl, rfl⟩ := h1
    unfold load_data_cached at h2
    simp only [Except.ok.injEq, Prod.mk.injEq] at h2
    obtain ⟨rfl, rfl⟩ := h2
    exact ⟨rfl, rfl, rfl⟩

/-- Witness for C8: both calls on the one-row sample resource return the
same loaded table. -/
theorem load_idempotent_witness :
    ([recA] : List Record) = [recA] ∧
      (some [recA] : Option (List Record)) = some [recA] ∧
      ([recA] : List Record).length = ([recA] : List Record).length :=
  load_idempotent (Resource.ok [rawA]) [recA] [recA] (some [recA])
    (some [recA]) (by rfl) (by rfl)

set_option maxRecDepth 4000 in
/-- C9: a missing input file makes the whole pass halt with the
`resourceNotFound` condition — no render outcome is produced — and its
user-facing message names the expected location `adult.csv` (it starts
with that file name); any other parse failure halts the pass the same
way with a `loadFailure` carrying the underlying cause, whose message
surfaces that cause. -/
theorem load_error_halts :
    (∀ (m M : Int) (sE sI : List (Option String)),
      runApp Resource.missing m M sE sI =
        Except.error LoadError.resourceNotFound) ∧
    (errorMessage LoadError.resourceNotFound).take 9 = "adult.csv" ∧
    (∀ (cause : String) (m M : Int) (sE sI : List (Option String)),
      runApp (Resource.malformed cause) m M sE sI =
        Except.error (LoadError.loadFailure cause)) ∧
    ∀ (cause : String), errorMessage (LoadError.loadFailure cause) =
      "데이터 로드 중 오류가 발생했습니다: " ++ cause := by
  refine ⟨fun m M sE sI => rfl, ?_, fun cause m M sE sI => rfl,
    fun cause => rfl⟩
  decide
